import Mathlib

/-!
Verification of the core placement-group and actor-option logic of
`src/core/base.py` (Ray-powered serverless LLM core abstractions).

Shallow embedding conventions:
* Python floats that the code only stores, passes through and interpolates
  (resource quantities, `timeout_s`) are modelled as `Rat`; no float
  arithmetic occurs in the embedded code paths.
* A Ray `PlacementGroup` handle is an opaque token, modelled as `Nat`
  (the index of the scheduler-side creation that produced it).
* The external world (the `ray` module and cluster scheduler) is an explicit
  `Env` value: whether `ray` is importable, whether `ray.wait` reports the
  placement group ready within the timeout, and whether
  `remove_placement_group` raises.
* Calls to the scheduler are recorded in an explicit `CallLog` threaded
  through every embedded function, so that claims about "no reservation",
  "exactly one release attempt" and "called exactly once with that spec"
  are statements about the log.
* Python exceptions are modelled by `Except PyError`; each constructor of
  `PyError` corresponds to an exception class the embedded code can raise.
-/

/-- Errors observable from the embedded code paths.

* `typeError ks` — Python `TypeError` raised by `ActorOptions(**options_dict)`
  when `options_dict` contains unexpected keyword arguments `ks`
  (src/core/base.py line 196 via lines 194-195).
* `rayDependencyError` — `RayDependencyError` raised by `_require_ray`
  (lines 98-101).
* `placementFailure t` — `PlacementFailure` raised on the reservation
  timeout path, carrying the `timeout_s` value interpolated into its
  message (lines 123-125).
* `releaseError` — an arbitrary exception raised by the scheduler-side
  `remove_placement_group` call.
* `invalidOptionError` — the `InvalidOptionError` named by the spec.
  The code defines no such exception class and never raises it; the
  constructor exists only so that spec claims mentioning it can be stated
  and refuted. -/
inductive PyError where
  | typeError (keys : List String)
  | rayDependencyError
  | placementFailure (timeout_s : Rat)
  | releaseError
  | invalidOptionError
deriving DecidableEq, Repr

/-- `ResourceBundle = Mapping[str, float]` (src/core/base.py line 52). -/
abbrev ResourceBundle : Type := List (String × Rat)

/-- `PlacementGroupSpec` (src/core/base.py lines 81-92): a frozen dataclass
with fields `bundles`, `strategy` (default `"PACK"`) and `timeout_s`
(default `30.0`).  The dataclass performs no validation of its fields. -/
structure PlacementGroupSpec where
  bundles : List ResourceBundle
  strategy : String := "PACK"
  timeout_s : Rat := 30
deriving DecidableEq, Repr

/-- `PlacementGroupSpec.to_kwargs` (lines 89-92): the keyword arguments
passed to Ray's `placement_group` — the bundles (as a fresh list) and the
strategy; `timeout_s` is not part of them. -/
def PlacementGroupSpec.to_kwargs (s : PlacementGroupSpec) :
    List ResourceBundle × String :=
  (s.bundles, s.strategy)

/-- A spec built passing only `bundles`, taking the dataclass defaults for
`strategy` and `timeout_s` (as in the unit tests,
`PlacementGroupSpec(bundles=({"GPU": 1},))`). -/
def PlacementGroupSpec.withDefaults (bundles : List ResourceBundle) :
    PlacementGroupSpec :=
  { bundles := bundles }

/-- External-world behaviour for one embedded call: whether the `ray`
module imported successfully, whether `ray.wait` reports the placement
group ready within `timeout_s`, and whether the scheduler-side
`remove_placement_group` raises when invoked. -/
structure Env where
  rayAvailable : Bool
  waitReady : Bool
  removeRaises : Bool
deriving DecidableEq, Repr

/-- Record of the calls the embedded code issued to the placement helpers
and the cluster scheduler.

* `reserveSpecs` — one entry per invocation of `create_placement_group`,
  recording the spec argument, in call order.
* `pgKwargs` — one entry per scheduler-side `placement_group(**kwargs)`
  creation; the handle returned for the n-th creation is the token `n`.
* `removeCalls` — number of `remove_placement_group` attempts issued. -/
structure CallLog where
  reserveSpecs : List PlacementGroupSpec := []
  pgKwargs : List (List ResourceBundle × String) := []
  removeCalls : Nat := 0
deriving DecidableEq, Repr

/-- `_require_ray` (src/core/base.py lines 95-102): returns the `ray`
module, or raises `RayDependencyError` when the import at module load
failed (`ray is None`). -/
def _require_ray (env : Env) : Except PyError Unit :=
  if env.rayAvailable then Except.ok () else Except.error PyError.rayDependencyError

/-- The raw `ray.util.placement_group.remove_placement_group` call as
issued by this module: an attempt is always recorded; the call raises
exactly when the scheduler-side removal raises. -/
def remove_placement_group (_pg : Nat) (env : Env) (log : CallLog) :
    Except PyError Unit × CallLog :=
  let log := { log with removeCalls := log.removeCalls + 1 }
  if env.removeRaises then (Except.error PyError.releaseError, log)
  else (Except.ok (), log)

/-- `create_placement_group` (src/core/base.py lines 105-127):
check the ray dependency, create the scheduler-side placement group from
`spec.to_kwargs()`, wait for readiness up to `spec.timeout_s`; when the
wait times out, call the raw `remove_placement_group` on the handle and
then raise `PlacementFailure` carrying `spec.timeout_s`.  Note the cleanup
call on line 122 is the raw imported function, not
`remove_placement_group_safe`: an exception it raises propagates instead
of `PlacementFailure`. -/
def create_placement_group (spec : PlacementGroupSpec) (env : Env)
    (log : CallLog) : Except PyError Nat × CallLog :=
  let log := { log with reserveSpecs := log.reserveSpecs ++ [spec] }
  match _require_ray env with
  | Except.error e => (Except.error e, log)
  | Except.ok _ =>
    let pg := log.pgKwargs.length
    let log := { log with pgKwargs := log.pgKwargs ++ [spec.to_kwargs] }
    if env.waitReady then
      (Except.ok pg, log)
    else
      match remove_placement_group pg env log with
      | (Except.error e, log2) => (Except.error e, log2)
      | (Except.ok _, log2) =>
        (Except.error (PyError.placementFailure spec.timeout_s), log2)

/-- `remove_placement_group_safe` (src/core/base.py lines 130-140):
return immediately on `None`; otherwise attempt the raw removal inside
`try/except Exception`, logging (and swallowing) any failure. -/
def remove_placement_group_safe (pg : Option Nat) (env : Env)
    (log : CallLog) : Except PyError Unit × CallLog :=
  match pg with
  | none => (Except.ok (), log)
  | some p =>
    match remove_placement_group p env log with
    | (Except.ok _, log2) => (Except.ok (), log2)
    | (Except.error _, log2) => (Except.ok (), log2)

/-- `ActorOptions` (src/core/base.py lines 149-160): a dataclass holding
the options used to configure a Ray actor, with defaults
`num_cpus = 0.0`, `num_gpus = 0.0` and `None` for every other field.
Python's `namespace` field is spelled `namespace_` (Lean keyword). -/
structure ActorOptions where
  num_cpus : Rat := 0
  num_gpus : Rat := 0
  resources : Option (List (String × Rat)) := none
  max_concurrency : Option Int := none
  name : Option String := none
  namespace_ : Option String := none
  lifetime : Option String := none
  placement_group : Option Nat := none
deriving DecidableEq, Repr

/-- A keyword-argument value in the dict built by
`ActorOptions.to_kwargs`. -/
inductive KwVal where
  | num (q : Rat)
  | int (n : Int)
  | str (s : String)
  | res (m : List (String × Rat))
  | pg (p : Nat)
deriving DecidableEq, Repr

/-- `ActorOptions.to_kwargs` (src/core/base.py lines 162-181):
`num_cpus` and `num_gpus` are always present; `resources` is added under
Python truthiness (`if self.resources:`), so it is dropped both when
`None` and when an empty mapping; every other optional field is added
under `is not None`.  Keys appear in source order. -/
def ActorOptions.to_kwargs (o : ActorOptions) : List (String × KwVal) :=
  [("num_cpus", KwVal.num o.num_cpus), ("num_gpus", KwVal.num o.num_gpus)]
  ++ (match o.resources with
      | some m => if m.isEmpty then [] else [("resources", KwVal.res m)]
      | none => [])
  ++ (match o.max_concurrency with
      | some n => [("max_concurrency", KwVal.int n)]
      | none => [])
  ++ (match o.name with
      | some s => [("name", KwVal.str s)]
      | none => [])
  ++ (match o.namespace_ with
      | some s => [("namespace", KwVal.str s)]
      | none => [])
  ++ (match o.lifetime with
      | some s => [("lifetime", KwVal.str s)]
      | none => [])
  ++ (match o.placement_group with
      | some p => [("placement_group", KwVal.pg p)]
      | none => [])

/-- The keys of the kwargs dict produced by `ActorOptions.to_kwargs`. -/
def ActorOptions.kwargKeys (o : ActorOptions) : List String :=
  o.to_kwargs.map Prod.fst

/-- The `**overrides` keyword arguments passed to `BaseActor.options`
(src/core/base.py line 191), decomposed by key.  A field of the option
set is overridden when the corresponding component is `some v` (for
`Option`-typed fields, `some none` models passing `None` explicitly);
`unknown` lists any keys that are not fields of `ActorOptions`, in the
order `dict.update` appends them. -/
structure Overrides where
  num_cpus : Option Rat := none
  num_gpus : Option Rat := none
  resources : Option (Option (List (String × Rat))) := none
  max_concurrency : Option (Option Int) := none
  name : Option (Option String) := none
  namespace_ : Option (Option String) := none
  lifetime : Option (Option String) := none
  placement_group : Option (Option Nat) := none
  unknown : List String := []
deriving DecidableEq, Repr

/-- The mutable dict `options_dict` inside `BaseActor.options`: the value
copy produced by `dataclasses.asdict` plus any extra (non-field) keys
added by `dict.update`. -/
structure OptionsDict where
  num_cpus : Rat
  num_gpus : Rat
  resources : Option (List (String × Rat))
  max_concurrency : Option Int
  name : Option String
  namespace_ : Option String
  lifetime : Option String
  placement_group : Option Nat
  extra : List String
deriving DecidableEq, Repr

/-- `dataclasses.asdict(cls.default_options)` (src/core/base.py line 194):
a fresh dict holding a value copy of every field of the default option
set; later mutation of this dict cannot reach the class-level default. -/
def dataclassesAsdict (o : ActorOptions) : OptionsDict :=
  { num_cpus := o.num_cpus
    num_gpus := o.num_gpus
    resources := o.resources
    max_concurrency := o.max_concurrency
    name := o.name
    namespace_ := o.namespace_
    lifetime := o.lifetime
    placement_group := o.placement_group
    extra := [] }

/-- `options_dict.update(overrides)` (src/core/base.py line 195): every
key present in `overrides` replaces (or, for unknown keys, is added to)
the copied dict; absent keys leave the copy unchanged. -/
def OptionsDict.update (d : OptionsDict) (ov : Overrides) : OptionsDict :=
  { num_cpus := ov.num_cpus.getD d.num_cpus
    num_gpus := ov.num_gpus.getD d.num_gpus
    resources := ov.resources.getD d.resources
    max_concurrency := ov.max_concurrency.getD d.max_concurrency
    name := ov.name.getD d.name
    namespace_ := ov.namespace_.getD d.namespace_
    lifetime := ov.lifetime.getD d.lifetime
    placement_group := ov.placement_group.getD d.placement_group
    extra := d.extra ++ ov.unknown }

/-- `ActorOptions(**options_dict)` (src/core/base.py line 196): the
dataclass constructor raises `TypeError` on any unexpected keyword
argument; otherwise it builds a fresh `ActorOptions` from the dict. -/
def ActorOptions.ofDict (d : OptionsDict) : Except PyError ActorOptions :=
  if d.extra.isEmpty then
    Except.ok
      { num_cpus := d.num_cpus
        num_gpus := d.num_gpus
        resources := d.resources
        max_concurrency := d.max_concurrency
        name := d.name
        namespace_ := d.namespace_
        lifetime := d.lifetime
        placement_group := d.placement_group }
  else
    Except.error (PyError.typeError d.extra)

/-- The class-level configuration a `BaseActor` subclass carries
(src/core/base.py lines 187-188): the shared `default_options` value and
the optional `placement_group_spec`. -/
structure ClassConfig where
  default_options : ActorOptions
  placement_group_spec : Option PlacementGroupSpec
deriving DecidableEq, Repr

/-- `BaseActor`'s own class attributes (src/core/base.py lines 187-188):
`default_options = ActorOptions(num_cpus=0.5)`, no placement spec. -/
def BaseActor.classConfig : ClassConfig :=
  { default_options := { num_cpus := mkRat 1 2 }
    placement_group_spec := none }

/-- Constructor-wise decidable equality for `Except`, so that results of
the embedded fallible functions can be compared by `decide`. -/
def Except.decEq {e a : Type} [DecidableEq e] [DecidableEq a] :
    (x y : Except e a) → Decidable (x = y)
  | Except.error e1, Except.error e2 =>
    if h : e1 = e2 then isTrue (by rw [h])
    else isFalse fun he => h (Except.error.inj he)
  | Except.error _, Except.ok _ => isFalse fun he => Except.noConfusion he
  | Except.ok _, Except.error _ => isFalse fun he => Except.noConfusion he
  | Except.ok a1, Except.ok a2 =>
    if h : a1 = a2 then isTrue (by rw [h])
    else isFalse fun he => h (Except.ok.inj he)

instance {e a : Type} [DecidableEq e] [DecidableEq a] :
    DecidableEq (Except e a) :=
  Except.decEq

/-- Outcome of one `BaseActor.options` call: the returned option set (or
the exception raised), the scheduler call log after the call, and the
class configuration as observable after the call (threaded explicitly so
that non-mutation of the shared class-level state is a statement, not a
convention: `asdict` copies, `update` writes the copy, the field
assignment on line 198 writes the freshly constructed `ActorOptions`). -/
structure OptionsResult where
  result : Except PyError ActorOptions
  log : CallLog
  cls : ClassConfig
deriving DecidableEq, Repr

/-- `BaseActor.options` (src/core/base.py lines 190-199): copy the class
defaults with `dataclasses.asdict`, apply `overrides` via `dict.update`,
rebuild an `ActorOptions` (raising `TypeError` on unknown keys), and then,
when the merged set has no placement handle and the class declares a
`placement_group_spec`, reserve a placement group with that spec and
attach the handle. -/
def BaseActor.options (cfg : ClassConfig) (ov : Overrides) (env : Env)
    (log : CallLog) : OptionsResult :=
  let options_dict := (dataclassesAsdict cfg.default_options).update ov
  match ActorOptions.ofDict options_dict with
  | Except.error e => { result := Except.error e, log := log, cls := cfg }
  | Except.ok options =>
    if options.placement_group = none then
      match cfg.placement_group_spec with
      | some spec =>
        match create_placement_group spec env log with
        | (Except.ok pg, log2) =>
          { result := Except.ok { options with placement_group := some pg }
            log := log2
            cls := cfg }
        | (Except.error e, log2) =>
          { result := Except.error e, log := log2, cls := cfg }
      | none => { result := Except.ok options, log := log, cls := cfg }
    else
      { result := Except.ok options, log := log, cls := cfg }

/-- Outcome of one `BaseActor.as_remote` call: the kwargs dict handed to
`ray.remote` (or the exception raised), plus the final call log and class
configuration. -/
structure AsRemoteResult where
  result : Except PyError (List (String × KwVal))
  log : CallLog
  cls : ClassConfig
deriving DecidableEq, Repr

/-- `BaseActor.as_remote` (src/core/base.py lines 201-208): check the ray
dependency first, then resolve the options and pass
`options.to_kwargs()` to `ray.remote`. -/
def BaseActor.as_remote (cfg : ClassConfig) (ov : Overrides) (env : Env)
    (log : CallLog) : AsRemoteResult :=
  match _require_ray env with
  | Except.error e => { result := Except.error e, log := log, cls := cfg }
  | Except.ok _ =>
    let r := BaseActor.options cfg ov env log
    match r.result with
    | Except.error e => { result := Except.error e, log := r.log, cls := r.cls }
    | Except.ok options =>
      { result := Except.ok options.to_kwargs, log := r.log, cls := r.cls }

/-- The GPU placement spec from the unit tests:
`PlacementGroupSpec(bundles=({"GPU": 1},))`. -/
def specGPU : PlacementGroupSpec :=
  PlacementGroupSpec.withDefaults [[("GPU", 1)]]

/-- `ExampleActor` from the unit tests:
`default_options = ActorOptions(num_cpus=1, num_gpus=0.25)`, no spec. -/
def exampleActorConfig : ClassConfig :=
  { default_options := { num_cpus := 1, num_gpus := mkRat 1 4 }
    placement_group_spec := none }

/-- `ExampleActorWithPlacement` from the unit tests:
`default_options = ActorOptions(num_cpus=1, num_gpus=1)` and the GPU
placement spec. -/
def exampleActorWithPlacementConfig : ClassConfig :=
  { default_options := { num_cpus := 1, num_gpus := 1 }
    placement_group_spec := some specGPU }

/-- Environment where ray is importable, the reservation becomes ready in
time and removals succeed. -/
def envOk : Env := { rayAvailable := true, waitReady := true, removeRaises := false }

/-- Environment where ray is importable, the reservation never becomes
ready, and removals succeed. -/
def envTimeout : Env := { rayAvailable := true, waitReady := false, removeRaises := false }

/-- Environment where ray is importable, the reservation never becomes
ready, and the cleanup removal itself raises. -/
def envTimeoutRemoveRaises : Env :=
  { rayAvailable := true, waitReady := false, removeRaises := true }

/-- Environment where the ray import failed (`ray is None`). -/
def envNoRay : Env := { rayAvailable := false, waitReady := true, removeRaises := false }

example :
    (BaseActor.options exampleActorConfig { num_cpus := some 2 } envOk {}).result
      = Except.ok { num_cpus := 2, num_gpus := mkRat 1 4 } := by decide

example :
    (BaseActor.options exampleActorWithPlacementConfig {} envOk {}).result
      = Except.ok { num_cpus := 1, num_gpus := 1, placement_group := some 0 } := by
  decide

example :
    create_placement_group specGPU envTimeout {}
      = (Except.error (PyError.placementFailure 30),
         { reserveSpecs := [specGPU], pgKwargs := [([[("GPU", 1)]], "PACK")],
           removeCalls := 1 }) := by decide

example :
    (BaseActor.options exampleActorConfig { unknown := ["num_cpu"] } envOk {}).result
      = Except.error (PyError.typeError ["num_cpu"]) := by decide

/-- C1 counterexample: on the override map `{"num_cpu": ...}` (an unknown
key) the resolution `BaseActor.options` raises Python's `TypeError` from
the `ActorOptions` constructor, not the `InvalidOptionError` the claim
names — no such exception class exists in the code. -/
theorem options_unknown_key_raises_type_error_cex :
    (BaseActor.options exampleActorConfig { unknown := ["num_cpu"] } envOk {}).result
        = Except.error (PyError.typeError ["num_cpu"])
      ∧ (BaseActor.options exampleActorConfig { unknown := ["num_cpu"] } envOk {}).result
        ≠ Except.error PyError.invalidOptionError := by
  decide

/-- C1 (amended): for every class config and every override map containing
at least one key that is not a field of the option set, resolution fails
with a `TypeError` (raised by the `ActorOptions(**options_dict)`
constructor, there being no `InvalidOptionError` in the code), and
performs no reservation: the call log is returned unchanged, so
`create_placement_group` was never invoked on that path. -/
theorem options_unknown_key_fails_without_reservation
    (cfg : ClassConfig) (ov : Overrides) (env : Env) (log : CallLog)
    (h : ov.unknown ≠ []) :
    BaseActor.options cfg ov env log
      = { result := Except.error (PyError.typeError ov.unknown),
          log := log, cls := cfg } := by
  cases hu : ov.unknown with
  | nil => exact absurd hu h
  | cons a l =>
    simp [BaseActor.options, dataclassesAsdict, OptionsDict.update,
      ActorOptions.ofDict, hu]

/-- C1 witness: the amended theorem applied at the concrete unknown key
`"num_cpu"` against the test fixture class config. -/
theorem options_unknown_key_fails_without_reservation_witness :
    BaseActor.options exampleActorConfig { unknown := ["num_cpu"] } envOk {}
      = { result := Except.error (PyError.typeError ["num_cpu"]),
          log := {}, cls := exampleActorConfig } :=
  options_unknown_key_fails_without_reservation exampleActorConfig
    { unknown := ["num_cpu"] } envOk {} (by decide)

/-- C2: for every placement spec, when ray is importable, the scheduler
does not report the reservation ready within `timeout_s`, and the cleanup
removal does not itself raise, `create_placement_group` fails with
`PlacementFailure` carrying `spec.timeout_s` and issues exactly one
release attempt (one `remove_placement_group` call) on the partially
created reservation before raising. -/
theorem create_placement_group_timeout_failure
    (spec : PlacementGroupSpec) (env : Env) (log : CallLog)
    (hray : env.rayAvailable = true) (hwait : env.waitReady = false)
    (hrem : env.removeRaises = false) :
    create_placement_group spec env log
      = (Except.error (PyError.placementFailure spec.timeout_s),
         { reserveSpecs := log.reserveSpecs ++ [spec],
           pgKwargs := log.pgKwargs ++ [spec.to_kwargs],
           removeCalls := log.removeCalls + 1 }) := by
  simp [create_placement_group, _require_ray, remove_placement_group,
    hray, hwait, hrem]

/-- C2 witness: the theorem applied to the GPU spec of the unit tests in
the environment whose wait never reports ready. -/
theorem create_placement_group_timeout_failure_witness :
    create_placement_group specGPU envTimeout {}
      = (Except.error (PyError.placementFailure 30),
         { reserveSpecs := [specGPU],
           pgKwargs := [([[("GPU", 1)]], "PACK")],
           removeCalls := 1 }) := by
  simpa [specGPU, PlacementGroupSpec.withDefaults, PlacementGroupSpec.to_kwargs] using
    create_placement_group_timeout_failure specGPU envTimeout {} rfl rfl rfl

/-- C3: on the timeout path, when the cleanup `remove_placement_group`
itself raises, the code does NOT swallow and log that failure: the cleanup
exception propagates to the caller and masks `PlacementFailure`, because
line 122 of src/core/base.py calls the raw imported
`remove_placement_group` instead of `remove_placement_group_safe`.  The
claim (and the spec) say the caller still observes `PlacementFailure`;
evaluating the code at the failing input shows it observes the cleanup
exception instead. -/
theorem create_placement_group_timeout_cleanup_masks_failure :
    create_placement_group specGPU envTimeoutRemoveRaises {}
        = (Except.error PyError.releaseError,
           { reserveSpecs := [specGPU],
             pgKwargs := [([[("GPU", 1)]], "PACK")],
             removeCalls := 1 })
      ∧ ∀ t, (create_placement_group specGPU envTimeoutRemoveRaises {}).1
          ≠ Except.error (PyError.placementFailure t) := by
  refine ⟨by decide, ?_⟩
  intro t
  simp [create_placement_group, _require_ray, remove_placement_group,
    envTimeoutRemoveRaises]

/-- C4 counterexample: for the test fixture class that declares a
placement spec, resolving with an empty override map yields an option set
whose `placement_group` field (absent from the overrides) is a freshly
reserved handle, not the class default `None` — so not every field absent
from the overrides equals the class default. -/
theorem options_placement_field_differs_from_default_cex :
    (BaseActor.options exampleActorWithPlacementConfig {} envOk {}).result
        = Except.ok { num_cpus := 1, num_gpus := 1, placement_group := some 0 }
      ∧ exampleActorWithPlacementConfig.default_options.placement_group = none
      ∧ (some 0 : Option Nat) ≠ none := by
  decide

/-- C4 (amended): for every class config and every override map containing
only known option-set keys, whenever resolution returns an option set,
every field named in the overrides has the override's value and every
field absent from the overrides equals the class default for all
non-placement fields; the `placement_group` field follows the same rule
exactly when the class declares no placement spec or the merged value
already carries a handle (otherwise resolution attaches a freshly
reserved handle instead, per C5), and in that no-reservation case
resolution is moreover guaranteed to succeed with precisely the merged
option set. -/
theorem options_known_keys_merge
    (cfg : ClassConfig) (ov : Overrides) (env : Env) (log : CallLog)
    (hknown : ov.unknown = []) :
    (∀ opts, (BaseActor.options cfg ov env log).result = Except.ok opts →
        opts.num_cpus = ov.num_cpus.getD cfg.default_options.num_cpus
      ∧ opts.num_gpus = ov.num_gpus.getD cfg.default_options.num_gpus
      ∧ opts.resources = ov.resources.getD cfg.default_options.resources
      ∧ opts.max_concurrency
          = ov.max_concurrency.getD cfg.default_options.max_concurrency
      ∧ opts.name = ov.name.getD cfg.default_options.name
      ∧ opts.namespace_ = ov.namespace_.getD cfg.default_options.namespace_
      ∧ opts.lifetime = ov.lifetime.getD cfg.default_options.lifetime
      ∧ ((cfg.placement_group_spec = none
            ∨ ov.placement_group.getD cfg.default_options.placement_group ≠ none) →
          opts.placement_group
            = ov.placement_group.getD cfg.default_options.placement_group))
    ∧ ((cfg.placement_group_spec = none
          ∨ ov.placement_group.getD cfg.default_options.placement_group ≠ none) →
        (BaseActor.options cfg ov env log).result
          = Except.ok
              { num_cpus := ov.num_cpus.getD cfg.default_options.num_cpus
                num_gpus := ov.num_gpus.getD cfg.default_options.num_gpus
                resources := ov.resources.getD cfg.default_options.resources
                max_concurrency :=
                  ov.max_concurrency.getD cfg.default_options.max_concurrency
                name := ov.name.getD cfg.default_options.name
                namespace_ := ov.namespace_.getD cfg.default_options.namespace_
                lifetime := ov.lifetime.getD cfg.default_options.lifetime
                placement_group :=
                  ov.placement_group.getD cfg.default_options.placement_group }) := by
  rcases hs : cfg.placement_group_spec with _ | s
  · constructor
    · intro opts hopts
      rcases hm : ov.placement_group.getD cfg.default_options.placement_group with
        _ | p <;>
      · simp_all [BaseActor.options, dataclassesAsdict, OptionsDict.update,
          ActorOptions.ofDict, hknown, hs, hm]
        subst hopts
        exact ⟨rfl, rfl, rfl, rfl, rfl, rfl, rfl, rfl⟩
    · intro _
      simp [BaseActor.options, dataclassesAsdict, OptionsDict.update,
        ActorOptions.ofDict, hknown, hs]
  · rcases hm : ov.placement_group.getD cfg.default_options.placement_group with
      _ | p
    · constructor
      · intro opts hopts
        rcases hc : create_placement_group s env log with ⟨res, log2⟩
        cases res with
        | ok pg =>
          simp_all [BaseActor.options, dataclassesAsdict, OptionsDict.update,
            ActorOptions.ofDict, hknown, hs, hm, hc]
          subst hopts
          exact ⟨rfl, rfl, rfl, rfl, rfl, rfl, rfl⟩
        | error e =>
          simp_all [BaseActor.options, dataclassesAsdict, OptionsDict.update,
            ActorOptions.ofDict, hknown, hs, hm, hc]
      · intro hcontra
        rcases hcontra with h1 | h2
        · simp at h1
        · exact absurd rfl h2
    · constructor
      · intro opts hopts
        simp_all [BaseActor.options, dataclassesAsdict, OptionsDict.update,
          ActorOptions.ofDict, hknown, hs, hm]
        subst hopts
        exact ⟨rfl, rfl, rfl, rfl, rfl, rfl, rfl, rfl⟩
      · intro _
        simp [BaseActor.options, dataclassesAsdict, OptionsDict.update,
          ActorOptions.ofDict, hknown, hs, hm]

/-- C4 witness: the amended theorem applied to the test fixture
(`defaults num_cpus=1, num_gpus=0.25`, no placement spec) with the
override `num_cpus=2`: the overridden field takes 2, the absent field
keeps 0.25. -/
theorem options_known_keys_merge_witness :
    (BaseActor.options exampleActorConfig { num_cpus := some 2 } envOk {}).result
      = Except.ok { num_cpus := 2, num_gpus := mkRat 1 4 } := by
  simpa [exampleActorConfig] using
    (options_known_keys_merge exampleActorConfig { num_cpus := some 2 } envOk {}
      rfl).2 (Or.inl rfl)

/-- Every invocation of `create_placement_group` appends exactly its spec
argument to the record of reservation calls, whatever the environment
does. -/
theorem create_placement_group_records_call
    (spec : PlacementGroupSpec) (env : Env) (log : CallLog) :
    (create_placement_group spec env log).2.reserveSpecs
      = log.reserveSpecs ++ [spec] := by
  rcases env with ⟨ra, wr, rr⟩
  cases ra <;> cases wr <;> cases rr <;>
    simp [create_placement_group, _require_ray, remove_placement_group]

/-- When `create_placement_group` returns a handle, that handle is the
token of the scheduler-side creation it performed on the entry log. -/
theorem create_placement_group_ok_token
    (spec : PlacementGroupSpec) (env : Env) (log : CallLog) (pg : Nat)
    (log2 : CallLog)
    (h : create_placement_group spec env log = (Except.ok pg, log2)) :
    pg = log.pgKwargs.length := by
  rcases env with ⟨ra, wr, rr⟩
  cases ra <;> cases wr <;> cases rr <;>
    simp_all [create_placement_group, _require_ray, remove_placement_group]

/-- C5: for every class config and override map with only known keys,
resolution invokes `create_placement_group` exactly once — with the
class's declared spec — precisely when the merged options carry no
placement handle and the class declares a spec (and never otherwise); and
whenever resolution returns, the returned option set carries the handle
that call produced (or the merged handle when no call was made). -/
theorem options_reserve_call_discipline
    (cfg : ClassConfig) (ov : Overrides) (env : Env) (log : CallLog)
    (hknown : ov.unknown = []) :
    ((BaseActor.options cfg ov env log).log.reserveSpecs
        = log.reserveSpecs ++
            (match cfg.placement_group_spec,
                ov.placement_group.getD cfg.default_options.placement_group with
             | some s, none => [s]
             | _, _ => []))
    ∧ (∀ opts, (BaseActor.options cfg ov env log).result = Except.ok opts →
        opts.placement_group
          = (match cfg.placement_group_spec,
                ov.placement_group.getD cfg.default_options.placement_group with
             | some _, none => some log.pgKwargs.length
             | _, mpg => mpg)) := by
  rcases hs : cfg.placement_group_spec with _ | s
  · constructor
    · simp [BaseActor.options, dataclassesAsdict, OptionsDict.update,
        ActorOptions.ofDict, hknown, hs]
    · intro opts hopts
      rcases hm : ov.placement_group.getD cfg.default_options.placement_group with
        _ | p <;>
      · simp_all [BaseActor.options, dataclassesAsdict, OptionsDict.update,
          ActorOptions.ofDict, hknown, hs]
        subst hopts
        rfl
  · rcases hm : ov.placement_group.getD cfg.default_options.placement_group with
      _ | p
    · rcases hc : create_placement_group s env log with ⟨res, log2⟩
      have hres := create_placement_group_records_call s env log
      rw [hc] at hres
      cases res with
      | ok pg =>
        have htok := create_placement_group_ok_token s env log pg log2 hc
        constructor
        · simp_all [BaseActor.options, dataclassesAsdict, OptionsDict.update,
            ActorOptions.ofDict, hknown, hs, hm, hc]
        · intro opts hopts
          simp_all [BaseActor.options, dataclassesAsdict, OptionsDict.update,
            ActorOptions.ofDict, hknown, hs, hm, hc]
          subst hopts
          rfl
      | error e =>
        constructor
        · simp_all [BaseActor.options, dataclassesAsdict, OptionsDict.update,
            ActorOptions.ofDict, hknown, hs, hm, hc]
        · intro opts hopts
          simp_all [BaseActor.options, dataclassesAsdict, OptionsDict.update,
            ActorOptions.ofDict, hknown, hs, hm, hc]
    · constructor
      · simp [BaseActor.options, dataclassesAsdict, OptionsDict.update,
          ActorOptions.ofDict, hknown, hs, hm]
      · intro opts hopts
        simp_all [BaseActor.options, dataclassesAsdict, OptionsDict.update,
          ActorOptions.ofDict, hknown, hs, hm]
        subst hopts
        rfl

/-- C5 witness: applying the theorem to the test fixture class declaring
the GPU spec, with empty overrides, in the ready environment: exactly one
reservation with `specGPU` is recorded and the returned option set carries
the fresh handle. -/
theorem options_reserve_call_discipline_witness :
    (BaseActor.options exampleActorWithPlacementConfig {} envOk {}).log.reserveSpecs
        = [specGPU]
      ∧ (BaseActor.options exampleActorWithPlacementConfig {} envOk {}).result
        = Except.ok { num_cpus := 1, num_gpus := 1, placement_group := some 0 } := by
  have h := options_reserve_call_discipline exampleActorWithPlacementConfig {}
    envOk {} rfl
  exact ⟨by simpa [exampleActorWithPlacementConfig] using h.1, by decide⟩

/-- C6: `remove_placement_group_safe` never propagates an exception: for
every handle, environment and log it returns normally; on `None` it
returns with the log untouched (no scheduler call), and on a real handle
it records exactly one removal attempt whether or not the scheduler-side
removal raises. -/
theorem remove_placement_group_safe_never_raises
    (pg : Option Nat) (env : Env) (log : CallLog) :
    (remove_placement_group_safe pg env log).1 = Except.ok ()
      ∧ (remove_placement_group_safe pg env log).2
        = (match pg with
           | none => log
           | some _ => { log with removeCalls := log.removeCalls + 1 }) := by
  rcases pg with _ | p
  · simp [remove_placement_group_safe]
  · cases h : env.removeRaises <;>
      simp [remove_placement_group_safe, remove_placement_group, h]

/-- C7: when the execution backend (the `ray` module) is unavailable,
`BaseActor.as_remote` fails with the dependency error (the code's
`RayDependencyError`, the spec's `RuntimeDependencyError`) before any
reservation is attempted: the call log is returned unchanged, so
`create_placement_group` was never invoked. -/
theorem as_remote_requires_ray_before_reservation
    (cfg : ClassConfig) (ov : Overrides) (env : Env) (log : CallLog)
    (h : env.rayAvailable = false) :
    BaseActor.as_remote cfg ov env log
      = { result := Except.error PyError.rayDependencyError,
          log := log, cls := cfg } := by
  simp [BaseActor.as_remote, _require_ray, h]

/-- C7 witness: the theorem applied to the base class config with empty
overrides in the environment where the ray import failed. -/
theorem as_remote_requires_ray_before_reservation_witness :
    BaseActor.as_remote BaseActor.classConfig {} envNoRay {}
      = { result := Except.error PyError.rayDependencyError,
          log := {}, cls := BaseActor.classConfig } :=
  as_remote_requires_ray_before_reservation BaseActor.classConfig {} envNoRay {} rfl

/-- C8 counterexample: `PlacementGroupSpec` is a plain frozen dataclass
with no validation; the value `PlacementGroupSpec(bundles=[], strategy=
"PACK", timeout_s=0)` is constructible and violates both claimed
invariants (non-empty bundles, strictly positive timeout). -/
theorem placementGroupSpec_unvalidated_construction_cex :
    (PlacementGroupSpec.mk [] "PACK" 0).bundles = []
      ∧ ¬ 0 < (PlacementGroupSpec.mk [] "PACK" 0).timeout_s := by
  decide

/-- C8 (amended): construction of a `PlacementGroupSpec` enforces neither
invariant — a spec with empty bundles and non-positive timeout is a legal
value — though any spec built with the dataclass's default `timeout_s`
(30.0, as in the unit-test fixtures) does satisfy the positive-timeout
invariant. -/
theorem placementGroupSpec_invariants_not_enforced :
    (∃ s : PlacementGroupSpec, s.bundles = [] ∧ s.timeout_s ≤ 0)
      ∧ ∀ bundles, 0 < (PlacementGroupSpec.withDefaults bundles).timeout_s := by
  constructor
  · exact ⟨PlacementGroupSpec.mk [] "PACK" 0, rfl, le_refl 0⟩
  · intro bundles
    simp [PlacementGroupSpec.withDefaults]

/-- C9: resolution never mutates the shared class-level configuration:
`dataclasses.asdict` hands `dict.update` a value copy and the placement
handle is assigned on the freshly constructed option set, so for every
class config, override map, environment and log, the class configuration
observable after `BaseActor.options` (threaded explicitly through the
embedding) is exactly the one before the call — in particular every field
of `default_options` is unchanged. -/
theorem options_does_not_mutate_class_defaults
    (cfg : ClassConfig) (ov : Overrides) (env : Env) (log : CallLog) :
    (BaseActor.options cfg ov env log).cls = cfg
      ∧ (BaseActor.options cfg ov env log).cls.default_options
        = cfg.default_options := by
  suffices h : (BaseActor.options cfg ov env log).cls = cfg by
    exact ⟨h, by rw [h]⟩
  unfold BaseActor.options
  rcases hof : ActorOptions.ofDict ((dataclassesAsdict cfg.default_options).update ov)
    with e | options
  · simp [hof]
  · rcases hs : cfg.placement_group_spec with _ | s
    · simp [hof, hs]
    · by_cases hm : options.placement_group = none
      · rcases hc : create_placement_group s env log with ⟨res, log2⟩
        cases res <;> simp [hof, hs, hm, hc]
      · simp [hof, hs, hm]

/-- C10: the kwargs dict built by `ActorOptions.to_kwargs` always carries
`num_cpus` and `num_gpus` (even at 0.0); it carries `max_concurrency`,
`name`, `namespace`, `lifetime` and `placement_group` exactly when the
corresponding field is not `None`; but it carries `resources` only when
the mapping is both present and non-empty — under Python truthiness an
empty named-resource mapping is dropped, unlike the other optional
fields. -/
theorem to_kwargs_key_presence (o : ActorOptions) :
    "num_cpus" ∈ o.kwargKeys
      ∧ "num_gpus" ∈ o.kwargKeys
      ∧ (("resources" ∈ o.kwargKeys) ↔ ∃ m, o.resources = some m ∧ m ≠ [])
      ∧ (("max_concurrency" ∈ o.kwargKeys) ↔ o.max_concurrency ≠ none)
      ∧ (("name" ∈ o.kwargKeys) ↔ o.name ≠ none)
      ∧ (("namespace" ∈ o.kwargKeys) ↔ o.namespace_ ≠ none)
      ∧ (("lifetime" ∈ o.kwargKeys) ↔ o.lifetime ≠ none)
      ∧ (("placement_group" ∈ o.kwargKeys) ↔ o.placement_group ≠ none) := by
  obtain ⟨c, g, r, mc, n, ns, lt, pg⟩ := o
  rcases r with _ | ⟨_ | ⟨a, m⟩⟩ <;> rcases mc with _ | mc <;>
    rcases n with _ | n <;> rcases ns with _ | ns <;>
      rcases lt with _ | lt <;> rcases pg with _ | pg <;>
        simp [ActorOptions.kwargKeys, ActorOptions.to_kwargs]
